import Mathlib

/-!
Verification development for the nanoforce-3d image-to-point-cloud core
(`src/components/ModelViewer.tsx`).

The core pipeline is embedded shallowly:

* `ColorMode` mirrors the twelve-value enum of `types.tsx`.
* `applyColorMode` is the pure color transform of `ModelViewer.tsx`
  (lines 22-86).  JavaScript numbers are modelled as rationals; the
  `tintHex` string parameter is modelled by its parsed RGB triple, with
  the string comparison `tintHex !== '#ffffff'` becoming `tint ≠ (1,1,1)`.
* `Raster` is the RGBA byte buffer handed to the sampler
  (`ctx.getImageData`): width, height and a flat row-major byte list.
* `samplePoints` / `sampleColors` embed the nested sampling loop of
  `PixelCloud` (lines 235-273): the visited coordinates of the two
  strided `for` loops, the alpha filter, the position formulas and the
  per-pixel color call, appended in scan order into flat arrays.
* `plySerialize` / `exportPLY` embed the `exportPLY` closure
  (lines 99-134): the ASCII PLY header, one vertex line per point with
  `toFixed(3)` coordinates and floored-and-clamped byte colors, and the
  early-return guard for a missing or empty particle buffer.
-/

/-- The twelve color modes of `types.tsx` (`enum ColorMode`). -/
inductive ColorMode where
  | ORIGINAL
  | COOL_BLACK
  | CYBERPUNK
  | MATRIX
  | GOLDEN
  | OCEAN
  | INFERNO
  | VAPORWAVE
  | ARCTIC
  | MONO
  | SEPIA
  | BLUEPRINT
deriving DecidableEq

/-- Particle shapes of `types.tsx` (`type ParticleShape`). -/
inductive ParticleShape where
  | square
  | circle
  | diamond
deriving DecidableEq

/-- Viewport modes of `types.tsx` (`type ViewportMode`). -/
inductive ViewportMode where
  | dark
  | bright
  | transparent
deriving DecidableEq

/-- The application state of `App.tsx` (`interface AppState`), with
JavaScript numbers as rationals and the `tintColor` hex string modelled
by its parsed RGB triple (`'#ffffff'` parses to `(1,1,1)`). -/
structure AppState where
  mode : String
  prompt : String
  samplingStep : ℚ
  particleSize : ℚ
  particleShape : ParticleShape
  zExtrusion : ℚ
  transparencyThreshold : ℚ
  colorMode : ColorMode
  viewportMode : ViewportMode
  brightness : ℚ
  tintColor : ℚ × ℚ × ℚ
  backgroundColor : String
  autoRotate : Bool
  focusDistance : ℚ
  aperture : ℚ
  gridBrightness : ℚ

/-- The color transform of `ModelViewer.tsx` lines 22-86: normalize the
byte channels, branch on the mode, multiply by the tint when it is not
white, then multiply by the brightness. -/
def applyColorMode (r g b : ℕ) (mode : ColorMode) (brightness : ℚ)
    (tint : ℚ × ℚ × ℚ) : ℚ × ℚ × ℚ :=
  let normR : ℚ := (r : ℚ) / 255
  let normG : ℚ := (g : ℚ) / 255
  let normB : ℚ := (b : ℚ) / 255
  let gray : ℚ := normR * 0.299 + normG * 0.587 + normB * 0.114
  let fin : ℚ × ℚ × ℚ :=
    match mode with
    | .COOL_BLACK => (gray * 0.2, gray * 0.2, gray * 0.3 + 0.1)
    | .CYBERPUNK => (normR * 1.2, normG * 0.8, normB * 1.5)
    | .MATRIX => (0, gray * 1.5, 0)
    | .GOLDEN => (gray * 1.2, gray * 0.9, gray * 0.2)
    | .OCEAN => (0, gray * 0.8, gray * 1.2)
    | .INFERNO => (gray * 1.5, gray * 0.5, 0)
    | .VAPORWAVE => (min 1 (normR + 0.2), normG * 0.8, min 1 (normB + 0.3))
    | .ARCTIC => (gray * 0.8, gray * 0.9, 1.0)
    | .MONO => (gray, gray, gray)
    | .SEPIA =>
        (min 1 (normR * 0.393 + normG * 0.769 + normB * 0.189),
         min 1 (normR * 0.349 + normG * 0.686 + normB * 0.168),
         min 1 (normR * 0.272 + normG * 0.534 + normB * 0.131))
    | .BLUEPRINT => (0, gray * 0.5, 1.0)
    | .ORIGINAL => (normR, normG, normB)
  let tinted : ℚ × ℚ × ℚ :=
    if tint ≠ ((1 : ℚ), (1 : ℚ), (1 : ℚ)) then
      (fin.1 * tint.1, fin.2.1 * tint.2.1, fin.2.2 * tint.2.2)
    else fin
  (tinted.1 * brightness, tinted.2.1 * brightness, tinted.2.2 * brightness)

/-- The raster handed to the sampler: width, height, and the flat
row-major RGBA byte buffer of `ctx.getImageData(0, 0, w, h).data`. -/
structure Raster where
  w : ℕ
  h : ℕ
  data : List ℕ

/-- Read one byte of the flat RGBA buffer (out-of-range reads default
to 0; the sampling loop only reads in range on a well-formed raster). -/
def Raster.byte (R : Raster) (i : ℕ) : ℕ := R.data.getD i 0

/-- Channel `c` (0 = r, 1 = g, 2 = b, 3 = a) of the pixel at `(x, y)`:
the source reads `data[(y * w + x) * 4 + c]`. -/
def Raster.chan (R : Raster) (x y c : ℕ) : ℕ := R.byte ((y * R.w + x) * 4 + c)

/-- The effective sampling stride: `Math.max(1, Math.floor(appState.samplingStep))`
(line 235). -/
def effStep (s : AppState) : ℕ := (max 1 ⌊s.samplingStep⌋).toNat

/-- The coordinates visited by one strided loop `for (v = 0; v < n; v += step)`:
`0, step, 2·step, …` while below `n`. -/
def coords (n step : ℕ) : List ℕ := List.range' 0 ((n + step - 1) / step) step

/-- All pixel coordinates `(x, y)` visited by the nested loops of
lines 242-243, in scan order: `y` outer, `x` inner. -/
def visited (R : Raster) (s : AppState) : List (ℕ × ℕ) :=
  (coords R.h (effStep s)).flatMap fun y =>
    (coords R.w (effStep s)).map fun x => (x, y)

/-- The visited pixels retained by the transparency filter of line 251:
`a >= appState.transparencyThreshold`. -/
def retained (R : Raster) (s : AppState) : List (ℕ × ℕ) :=
  (visited R s).filter fun p =>
    decide (s.transparencyThreshold ≤ (R.chan p.1 p.2 3 : ℚ))

/-- The per-pixel luminance of line 252: `(r + g + b) / (3 * 255)`. -/
def brightnessVal (R : Raster) (p : ℕ × ℕ) : ℚ :=
  ((R.chan p.1 p.2 0 : ℚ) + (R.chan p.1 p.2 1 : ℚ) + (R.chan p.1 p.2 2 : ℚ))
    / (3 * 255)

/-- The position triple pushed for a retained pixel (lines 255-259), with
`offsetX = w / 2` and `offsetY = h / 2` from lines 239-240. -/
def pointPos (R : Raster) (s : AppState) (p : ℕ × ℕ) : List ℚ :=
  [((p.1 : ℚ) - (R.w : ℚ) / 2) * s.particleSize * 0.02,
   -((p.2 : ℚ) - (R.h : ℚ) / 2) * s.particleSize * 0.02,
   brightnessVal R p * s.zExtrusion * 0.02]

/-- The color triple pushed for a retained pixel (lines 262-268). -/
def pointCol (R : Raster) (s : AppState) (p : ℕ × ℕ) : List ℚ :=
  let c := applyColorMode (R.chan p.1 p.2 0) (R.chan p.1 p.2 1)
    (R.chan p.1 p.2 2) s.colorMode s.brightness s.tintColor
  [c.1, c.2.1, c.2.2]

/-- The flat `validPoints` array produced by the sampling loop. -/
def samplePoints (R : Raster) (s : AppState) : List ℚ :=
  (retained R s).flatMap (pointPos R s)

/-- The flat `validColors` array produced by the sampling loop. -/
def sampleColors (R : Raster) (s : AppState) : List ℚ :=
  (retained R s).flatMap (pointCol R s)

/-- The particle buffer stored by `setParticlesData` (line 273). -/
structure ParticlesData where
  pos : List ℚ
  col : List ℚ
deriving DecidableEq

/-- One full sampler pass: raster plus state to the particle buffer. -/
def sample (R : Raster) (s : AppState) : ParticlesData :=
  ⟨samplePoints R s, sampleColors R s⟩

/-- JavaScript `x.toFixed(3)` as the integer number of thousandths it
prints: round half away from zero at the third decimal. -/
def toFixed3 (q : ℚ) : ℤ :=
  if q < 0 then -round (-q * 1000) else round (q * 1000)

/-- The byte written for one color channel (lines 121-123):
`Math.min(255, Math.max(0, Math.floor(c * 255)))`. -/
def colByte (c : ℚ) : ℤ := min 255 (max 0 ⌊c * 255⌋)

/-- The numeric content of one PLY vertex line: the three coordinates as
printed thousandths and the three color bytes. -/
structure PLYVertex where
  x3 : ℤ
  y3 : ℤ
  z3 : ℤ
  red : ℤ
  green : ℤ
  blue : ℤ
deriving DecidableEq

/-- The vertex line built from flat-array offset `i` (lines 115-124). -/
def plyVertexOf (pd : ParticlesData) (i : ℕ) : PLYVertex :=
  ⟨toFixed3 (pd.pos.getD i 0),
   toFixed3 (pd.pos.getD (i + 1) 0),
   toFixed3 (pd.pos.getD (i + 2) 0),
   colByte (pd.col.getD i 0),
   colByte (pd.col.getD (i + 1) 0),
   colByte (pd.col.getD (i + 2) 0)⟩

/-- All vertex lines: the loop `for (i = 0; i < pos.length; i += 3)`. -/
def plyVertices (pd : ParticlesData) : List PLYVertex :=
  (List.range' 0 ((pd.pos.length + 2) / 3) 3).map (plyVertexOf pd)

/-- The vertex count written in the header: `pos.length / 3` (line 105). -/
def plyVertexCount (pd : ParticlesData) : ℕ := pd.pos.length / 3

/-- Pad a value below 1000 to exactly three decimal digits. -/
def pad3 (m : ℕ) : String :=
  if m < 10 then "00" ++ toString m
  else if m < 100 then "0" ++ toString m
  else toString m

/-- Print a signed number of thousandths the way `toFixed(3)` does. -/
def fmt3 (n : ℤ) : String :=
  (if n < 0 then "-" else "") ++ toString (n.natAbs / 1000) ++ "." ++
    pad3 (n.natAbs % 1000)

/-- One ASCII vertex line, `"x y z r g b\n"` (line 124). -/
def vertexLineStr (v : PLYVertex) : String :=
  fmt3 v.x3 ++ " " ++ fmt3 v.y3 ++ " " ++ fmt3 v.z3 ++ " " ++
    toString v.red ++ " " ++ toString v.green ++ " " ++ toString v.blue ++ "\n"

/-- The ASCII PLY header of lines 102-113 for a given vertex count. -/
def plyHeader (n : ℕ) : String :=
  "ply\nformat ascii 1.0\nelement vertex " ++ toString n ++
    "\nproperty float x\nproperty float y\nproperty float z\n" ++
    "property uchar red\nproperty uchar green\nproperty uchar blue\nend_header\n"

/-- The full PLY payload built by the export loop: header then one line
per vertex. -/
def plySerialize (pd : ParticlesData) : String :=
  plyHeader (plyVertexCount pd) ++
    String.join ((plyVertices pd).map vertexLineStr)

/-- The `exportPLY` closure of lines 99-134: with no particle buffer or
an empty one it returns early and produces no bytes (line 100);
otherwise it produces the serialized PLY payload. -/
def exportPLY (pd? : Option ParticlesData) : Option String :=
  match pd? with
  | none => none
  | some pd => if pd.pos.length = 0 then none else some (plySerialize pd)

/-- Row-major scan order on pixel coordinates: earlier row, or same row
and smaller column. -/
def rowMajorLT (p q : ℕ × ℕ) : Prop :=
  p.2 < q.2 ∨ (p.2 = q.2 ∧ p.1 < q.1)

/-- A 1×1 raster whose only pixel is opaque white. -/
def white1x1 : Raster := ⟨1, 1, [255, 255, 255, 255]⟩

/-- The single-visible-pixel scenario configuration: `step = 1`,
`alphaThreshold = 0`, `colorMode = ORIGINAL`, `brightness = 1`,
white tint; `particleSize` and `zExtrusion` stay free. -/
def cfgSingle (ps zE : ℚ) : AppState :=
  ⟨"upload", "", 1, ps, .square, zE, 0, .ORIGINAL, .dark, 1, (1, 1, 1),
   "#000000", true, 0, 3, 1⟩

/-- A state equal to `cfgSingle 1 1` on every field the sampler reads,
but different on the fields it does not (shape, viewport, camera, …). -/
def cfgOther : AppState :=
  ⟨"generate", "cube", 1, 1, .circle, 1, 0, .ORIGINAL, .bright, 1, (1, 1, 1),
   "#111111", false, 2, 5, 1 / 2⟩

/-- A one-point particle buffer used to exercise the exporter: its color
green channel is 1 (byte 255) and its blue channel 2 overflows, so the
clamp in the byte conversion is exercised. -/
def pdOne : ParticlesData := ⟨[1 / 3, 0, 2], [1 / 2, 1, 2]⟩

/-- The effective stride is positive: `Math.max(1, …)` bounds it below. -/
theorem effStep_pos (s : AppState) : 0 < effStep s := by
  unfold effStep
  have h := le_max_left (1 : ℤ) ⌊s.samplingStep⌋
  omega

/-- Every coordinate produced by a strided loop is a multiple of the stride. -/
theorem coords_mod (n step m : ℕ) (h : m ∈ coords n step) : m % step = 0 := by
  unfold coords at h
  obtain ⟨i, hi, rfl⟩ := List.mem_range'.1 h
  simp [Nat.mul_mod_right]

/-- The visited pixel list is strictly increasing in row-major order. -/
theorem visited_pairwise (R : Raster) (s : AppState) :
    (visited R s).Pairwise rowMajorLT := by
  unfold visited coords
  rw [List.pairwise_flatMap]
  constructor
  · intro y hy
    rw [List.pairwise_map]
    refine (List.pairwise_lt_range' _ _ _ (effStep_pos s)).imp ?_
    intro a b hab
    exact Or.inr ⟨rfl, hab⟩
  · refine (List.pairwise_lt_range' _ _ _ (effStep_pos s)).imp ?_
    intro y1 y2 hlt p hp q hq
    obtain ⟨x1, hx1, rfl⟩ := List.mem_map.1 hp
    obtain ⟨x2, hx2, rfl⟩ := List.mem_map.1 hq
    exact Or.inl hlt

/-- A flat-map whose blocks all have length 3 has length three times the
source list. -/
theorem flatMap_three_length {α β : Type} (l : List α) (f : α → List β)
    (hf : ∀ a, (f a).length = 3) : (l.flatMap f).length = 3 * l.length := by
  induction l with
  | nil => simp
  | cons a t ih =>
    rw [List.flatMap_cons, List.length_append, hf, ih, List.length_cons]
    ring

/-- Indexing into a flat-map of length-3 blocks: entry `3 i + j` of the
flat list is entry `j` of the block built from source element `i`. -/
theorem flatMap_three_getElem {α β : Type} (l : List α) (f : α → List β)
    (hf : ∀ a, (f a).length = 3) (i j : ℕ) (hj : j < 3) (x : α)
    (hx : l[i]? = some x) : (l.flatMap f)[3 * i + j]? = (f x)[j]? := by
  induction l generalizing i with
  | nil => simp at hx
  | cons a t ih =>
    cases i with
    | zero =>
      simp only [List.getElem?_cons_zero, Option.some.injEq] at hx
      subst hx
      rw [List.flatMap_cons]
      have h0 : 3 * 0 + j = j := by omega
      rw [h0, List.getElem?_append_left (by rw [hf]; omega)]
    | succ i =>
      rw [List.flatMap_cons, List.getElem?_append_right (by rw [hf]; omega)]
      have h3 : 3 * (i + 1) + j - (f a).length = 3 * i + j := by rw [hf]; omega
      rw [h3]
      exact ih i (by simpa using hx)

/-- The value printed by `toFixed(3)` is within half a thousandth of the
number it prints. -/
theorem toFixed3_tolerance (q : ℚ) :
    |((toFixed3 q : ℤ) : ℚ) / 1000 - q| ≤ 1 / 2000 := by
  rcases lt_or_ge q 0 with hneg | hpos
  · have h := abs_sub_round (-q * 1000)
    rw [abs_sub_comm] at h
    rw [toFixed3, if_pos hneg]
    push_cast
    have he : -((round (-q * 1000) : ℚ)) / 1000 - q =
        -(((round (-q * 1000) : ℚ)) - -q * 1000) / 1000 := by ring
    rw [he, abs_div, abs_neg, abs_of_pos (by norm_num : (0:ℚ) < 1000)]
    linarith
  · have h := abs_sub_round (q * 1000)
    rw [abs_sub_comm] at h
    rw [toFixed3, if_neg (not_lt.2 hpos)]
    have he : ((round (q * 1000) : ℚ)) / 1000 - q =
        (((round (q * 1000) : ℚ)) - q * 1000) / 1000 := by ring
    rw [he, abs_div, abs_of_pos (by norm_num : (0:ℚ) < 1000)]
    linarith

/-- C1 counterexample: exporting an empty PointCloud does not produce a
header-only PLY payload — the guard on line 100 returns early and the
export produces no bytes at all. -/
theorem export_empty_counterexample :
    exportPLY (some ⟨[], []⟩) = none ∧
    exportPLY (some ⟨[], []⟩) ≠ some (plyHeader 0) := by
  refine ⟨rfl, ?_⟩
  intro h
  simp [exportPLY] at h

/-- C1 (amended): exporting an empty PointCloud is not an error, but it
emits nothing: the `exportPLY` closure returns early on an absent or
empty particle buffer and produces no byte sequence. -/
theorem export_empty_amended :
    exportPLY (some ⟨[], []⟩) = none ∧ exportPLY none = none := ⟨rfl, rfl⟩

/-- C2 counterexample: on a 1×1 opaque white raster with `step = 1`,
`alphaThreshold = 0`, `colorMode = ORIGINAL`, `brightness = 1`, white
tint, `particleSize = 1` and `zExtrusion = 1`, the single emitted point
sits at `(-1/100, 1/100, 1/50)`, not at `(0, 0, 0)`. -/
theorem single_pixel_counterexample :
    samplePoints white1x1 (cfgSingle 1 1) = [-(1 / 100), 1 / 100, 1 / 50] ∧
    ([-(1 / 100), 1 / 100, 1 / 50] : List ℚ) ≠ [0, 0, 0] := by
  constructor
  · simp [samplePoints, retained, visited, coords, effStep, cfgSingle, white1x1,
      Raster.chan, Raster.byte, List.range', pointPos, brightnessVal]
    norm_num
  · norm_num

/-- C2 (amended): the single-visible-pixel scenario emits exactly one
point with color `(1, 1, 1)`, at position
`(-(particleSize/100), particleSize/100, zExtrusion/50)` — that is,
`((0 - W/2)·particleSize·0.02, -(0 - H/2)·particleSize·0.02, 1·zExtrusion·0.02)`
with `W = H = 1` and luma 1. -/
theorem single_pixel_amended (ps zE : ℚ) :
    sample white1x1 (cfgSingle ps zE) =
      ⟨[-(ps / 100), ps / 100, zE / 50], [1, 1, 1]⟩ := by
  simp [sample, samplePoints, sampleColors, retained, visited, coords, effStep,
    cfgSingle, white1x1, Raster.chan, Raster.byte, List.range', pointPos, pointCol,
    brightnessVal, applyColorMode]
  norm_num
  ring_nf
  exact ⟨trivial, trivial⟩

/-- C3: the `i`-th emitted point of the sampler, read out of the flat
`validPoints` array at offsets `3i`, `3i+1`, `3i+2`, carries exactly the
documented position: `posX = (x - W/2)·particleSize·0.02`,
`posY = -(y - H/2)·particleSize·0.02`,
`posZ = ((r+g+b)/(3·255))·zExtrusion·0.02`, where `(x, y)` is the `i`-th
retained pixel. -/
theorem samplePoints_formula (R : Raster) (s : AppState) (i x y : ℕ)
    (h : (retained R s)[i]? = some (x, y)) :
    (samplePoints R s)[3 * i]? =
      some (((x : ℚ) - (R.w : ℚ) / 2) * s.particleSize * 0.02) ∧
    (samplePoints R s)[3 * i + 1]? =
      some (-((y : ℚ) - (R.h : ℚ) / 2) * s.particleSize * 0.02) ∧
    (samplePoints R s)[3 * i + 2]? =
      some (((R.chan x y 0 : ℚ) + (R.chan x y 1 : ℚ) + (R.chan x y 2 : ℚ))
        / (3 * 255) * s.zExtrusion * 0.02) := by
  have h0 := flatMap_three_getElem (retained R s) (pointPos R s) (fun p => rfl)
    i 0 (by omega) _ h
  have h1 := flatMap_three_getElem (retained R s) (pointPos R s) (fun p => rfl)
    i 1 (by omega) _ h
  have h2 := flatMap_three_getElem (retained R s) (pointPos R s) (fun p => rfl)
    i 2 (by omega) _ h
  rw [show 3 * i + 0 = 3 * i from by omega] at h0
  refine ⟨?_, ?_, ?_⟩
  · rw [show samplePoints R s = (retained R s).flatMap (pointPos R s) from rfl, h0]
    simp [pointPos, brightnessVal]
  · rw [show samplePoints R s = (retained R s).flatMap (pointPos R s) from rfl, h1]
    simp [pointPos, brightnessVal]
  · rw [show samplePoints R s = (retained R s).flatMap (pointPos R s) from rfl, h2]
    simp [pointPos, brightnessVal]

/-- C3 witness: the position formula evaluated on the concrete
single-white-pixel scenario. -/
theorem samplePoints_formula_witness :
    (samplePoints white1x1 (cfgSingle 1 1))[3 * 0]? =
      some ((((0 : ℕ) : ℚ) - (white1x1.w : ℚ) / 2) *
        (cfgSingle 1 1).particleSize * 0.02) := by
  have hmem : (retained white1x1 (cfgSingle 1 1))[0]? = some (0, 0) := by
    simp [retained, visited, coords, effStep, cfgSingle, white1x1,
      Raster.chan, Raster.byte, List.range']
  exact (samplePoints_formula white1x1 (cfgSingle 1 1) 0 0 0 hmem).1

/-- C4: a visited pixel is retained — contributes a point to the output —
exactly when its alpha channel is at least the transparency threshold. -/
theorem sampler_alpha_filter (R : Raster) (s : AppState) (p : ℕ × ℕ) :
    p ∈ retained R s ↔
      p ∈ visited R s ∧ s.transparencyThreshold ≤ (R.chan p.1 p.2 3 : ℚ) := by
  simp [retained, List.mem_filter]

/-- C5: every emitted point originates from coordinates that are multiples
of the effective clamped stride, and the retained pixel list is strictly
ordered row-major (`y` outer, `x` inner, each increasing). -/
theorem sampler_stride_order (R : Raster) (s : AppState) (p : ℕ × ℕ)
    (hp : p ∈ retained R s) :
    (p.1 % effStep s = 0 ∧ p.2 % effStep s = 0) ∧
      (retained R s).Pairwise rowMajorLT := by
  have hv : p ∈ visited R s := (List.mem_filter.1 hp).1
  unfold visited at hv
  obtain ⟨y, hy, hmem⟩ := List.mem_flatMap.1 hv
  obtain ⟨x, hx, rfl⟩ := List.mem_map.1 hmem
  refine ⟨⟨coords_mod _ _ _ hx, coords_mod _ _ _ hy⟩, ?_⟩
  unfold retained
  exact (visited_pairwise R s).filter _

/-- C5 witness: the stride and ordering facts evaluated on the concrete
single-white-pixel scenario. -/
theorem sampler_stride_order_witness :
    ((0 % effStep (cfgSingle 1 1) = 0 ∧ 0 % effStep (cfgSingle 1 1) = 0) ∧
      (retained white1x1 (cfgSingle 1 1)).Pairwise rowMajorLT) := by
  have hmem : ((0, 0) : ℕ × ℕ) ∈ retained white1x1 (cfgSingle 1 1) := by
    simp [retained, visited, coords, effStep, cfgSingle, white1x1,
      Raster.chan, Raster.byte, List.range']
  exact sampler_stride_order white1x1 (cfgSingle 1 1) (0, 0) hmem

/-- C6 counterexample: the empty particle buffer is a PointCloud with
`N = 0` points, yet `exportPLY` produces no output at all — in
particular not the header-only payload `plySerialize ⟨[], []⟩` the
claim's header/vertex-line facts would require. -/
theorem export_roundtrip_counterexample :
    (⟨[], []⟩ : ParticlesData).pos.length = 3 * 0 ∧
    exportPLY (some ⟨[], []⟩) = none ∧
    exportPLY (some ⟨[], []⟩) ≠ some (plySerialize ⟨[], []⟩) := by
  refine ⟨rfl, rfl, ?_⟩
  intro h
  simp [exportPLY] at h

/-- C6 (amended, restricted to `N ≥ 1`): for a particle buffer holding
`N ≥ 1` points, `exportPLY` does produce output, namely the serialized
payload; that payload is the header followed by the vertex lines, the
header vertex count is `N`, there are exactly `N` vertex lines, each
line's printed coordinates are within half a thousandth (3-decimal
rounding tolerance) of the stored position, and each printed color byte
is exactly `clamp(floor(channel·255), 0, 255)`. (For `N = 0` the export
returns early and emits nothing.) -/
theorem export_roundtrip (pd : ParticlesData) (N : ℕ) (hN : 1 ≤ N)
    (hpos : pd.pos.length = 3 * N) (hcol : pd.col.length = 3 * N) :
    exportPLY (some pd) = some (plySerialize pd) ∧
    plySerialize pd = plyHeader N ++ String.join ((plyVertices pd).map vertexLineStr) ∧
    plyVertexCount pd = N ∧ (plyVertices pd).length = N ∧
    ∀ i, i < N →
      (plyVertices pd)[i]? = some (plyVertexOf pd (3 * i)) ∧
      |((plyVertexOf pd (3 * i)).x3 : ℚ) / 1000 - pd.pos.getD (3 * i) 0| ≤ 1 / 2000 ∧
      |((plyVertexOf pd (3 * i)).y3 : ℚ) / 1000 - pd.pos.getD (3 * i + 1) 0| ≤ 1 / 2000 ∧
      |((plyVertexOf pd (3 * i)).z3 : ℚ) / 1000 - pd.pos.getD (3 * i + 2) 0| ≤ 1 / 2000 ∧
      (plyVertexOf pd (3 * i)).red = min 255 (max 0 ⌊pd.col.getD (3 * i) 0 * 255⌋) ∧
      (plyVertexOf pd (3 * i)).green = min 255 (max 0 ⌊pd.col.getD (3 * i + 1) 0 * 255⌋) ∧
      (plyVertexOf pd (3 * i)).blue = min 255 (max 0 ⌊pd.col.getD (3 * i + 2) 0 * 255⌋) := by
  have hcount : plyVertexCount pd = N := by
    unfold plyVertexCount
    rw [hpos]
    omega
  refine ⟨?_, ?_, hcount, ?_, ?_⟩
  · show (if pd.pos.length = 0 then none else some (plySerialize pd)) =
      some (plySerialize pd)
    rw [if_neg (by rw [hpos]; omega)]
  · unfold plySerialize
    rw [hcount]
  · unfold plyVertices
    rw [List.length_map, List.length_range', hpos]
    omega
  · intro i hi
    refine ⟨?_, toFixed3_tolerance _, toFixed3_tolerance _, toFixed3_tolerance _,
      rfl, rfl, rfl⟩
    unfold plyVertices
    rw [List.getElem?_map,
      List.getElem?_range' 0 3 (show i < (pd.pos.length + 2) / 3 from by rw [hpos]; omega)]
    simp

/-- C6 witness: the round-trip facts evaluated on the concrete one-point
buffer `pdOne` (whose blue channel 2 exercises the clamp). -/
theorem export_roundtrip_witness :
    exportPLY (some pdOne) = some (plySerialize pdOne) ∧
    plySerialize pdOne = plyHeader 1 ++ String.join ((plyVertices pdOne).map vertexLineStr) ∧
    plyVertexCount pdOne = 1 ∧ (plyVertices pdOne).length = 1 ∧
    ((plyVertices pdOne)[0]? = some (plyVertexOf pdOne (3 * 0)) ∧
     |((plyVertexOf pdOne (3 * 0)).x3 : ℚ) / 1000 - pdOne.pos.getD (3 * 0) 0| ≤ 1 / 2000 ∧
     |((plyVertexOf pdOne (3 * 0)).y3 : ℚ) / 1000 - pdOne.pos.getD (3 * 0 + 1) 0| ≤ 1 / 2000 ∧
     |((plyVertexOf pdOne (3 * 0)).z3 : ℚ) / 1000 - pdOne.pos.getD (3 * 0 + 2) 0| ≤ 1 / 2000 ∧
     (plyVertexOf pdOne (3 * 0)).red = min 255 (max 0 ⌊pdOne.col.getD (3 * 0) 0 * 255⌋) ∧
     (plyVertexOf pdOne (3 * 0)).green = min 255 (max 0 ⌊pdOne.col.getD (3 * 0 + 1) 0 * 255⌋) ∧
     (plyVertexOf pdOne (3 * 0)).blue = min 255 (max 0 ⌊pdOne.col.getD (3 * 0 + 2) 0 * 255⌋)) := by
  obtain ⟨a, b, c, d, e⟩ := export_roundtrip pdOne 1 (by norm_num)
    (by norm_num [pdOne]) (by norm_num [pdOne])
  exact ⟨a, b, c, d, e 0 (by norm_num)⟩

/-- C7: under `colorMode = MATRIX` the transform outputs red 0 and blue 0,
and green equal to the luminance `0.299·R + 0.587·G + 0.114·B` of the
normalized channels times 1.5, with tint and brightness then applied as
multiplicative factors (on the zero channels they leave 0). -/
theorem color_matrix_zeroes (r g b : ℕ) (br : ℚ) (t : ℚ × ℚ × ℚ) :
    applyColorMode r g b .MATRIX br t =
      (0, ((r : ℚ) / 255 * 0.299 + (g : ℚ) / 255 * 0.587 + (b : ℚ) / 255 * 0.114)
        * 1.5 * t.2.1 * br, 0) := by
  obtain ⟨ta, tg, tb⟩ := t
  simp only [applyColorMode]
  by_cases h : ((ta, tg, tb) : ℚ × ℚ × ℚ) = (1, 1, 1)
  · simp only [Prod.mk.injEq] at h
    obtain ⟨h1, h2, h3⟩ := h
    subst h1 h2 h3
    rw [if_neg (by simp)]
    simp only [Prod.mk.injEq]
    refine ⟨by ring, by ring, by ring⟩
  · rw [if_pos h]
    simp only [Prod.mk.injEq]
    refine ⟨by ring, by ring, by ring⟩

/-- C8: the sampler clamps the stride to a minimum of 1. (The other half
of the claim — failing fast on non-finite numeric fields — has no
counterpart in the source: no finiteness check exists anywhere in the
sampling path.) -/
theorem effStep_ge_one (s : AppState) : 1 ≤ effStep s := by
  unfold effStep
  have h := le_max_left (1 : ℤ) ⌊s.samplingStep⌋
  omega

/-- C9: sampling is deterministic and depends only on the raster and the
sampling-relevant configuration fields — two states agreeing on stride,
particle size, extrusion, threshold, color mode, brightness and tint
produce identical point sequences. -/
theorem sample_deterministic (R : Raster) (s1 s2 : AppState)
    (h1 : s1.samplingStep = s2.samplingStep)
    (h2 : s1.particleSize = s2.particleSize)
    (h3 : s1.zExtrusion = s2.zExtrusion)
    (h4 : s1.transparencyThreshold = s2.transparencyThreshold)
    (h5 : s1.colorMode = s2.colorMode)
    (h6 : s1.brightness = s2.brightness)
    (h7 : s1.tintColor = s2.tintColor) :
    sample R s1 = sample R s2 := by
  rcases s1 with ⟨m1, p1, ss1, psz1, sh1, z1, t1, cm1, vm1, br1, tc1, bg1, ar1, fd1, ap1, gb1⟩
  rcases s2 with ⟨m2, p2, ss2, psz2, sh2, z2, t2, cm2, vm2, br2, tc2, bg2, ar2, fd2, ap2, gb2⟩
  dsimp at h1 h2 h3 h4 h5 h6 h7
  subst h1 h2 h3 h4 h5 h6 h7
  rfl

/-- C9 witness: two states that agree on every sampler-relevant field but
differ on unrelated ones produce the same sample. -/
theorem sample_deterministic_witness :
    sample white1x1 (cfgSingle 1 1) = sample white1x1 cfgOther :=
  sample_deterministic white1x1 (cfgSingle 1 1) cfgOther rfl rfl rfl rfl rfl rfl rfl

/-- C10: the sampler emits exactly one position triple and one color
triple per retained pixel, so the flat position and color arrays both
have length `3 N` and in particular are equal in length. -/
theorem sampler_equal_lengths (R : Raster) (s : AppState) :
    (sample R s).pos.length = 3 * (retained R s).length ∧
    (sample R s).col.length = 3 * (retained R s).length ∧
    (sample R s).pos.length = (sample R s).col.length := by
  have hp := flatMap_three_length (retained R s) (pointPos R s) (fun p => rfl)
  have hc := flatMap_three_length (retained R s) (pointCol R s) (fun p => rfl)
  exact ⟨hp, hc, hp.trans hc.symm⟩
